import Mathlib
set_option maxRecDepth 10000

/-!
Verification development for the match-data acquisition and normalization
pipeline (modules `http_client.py`, `parsers.py` and the date-listing
assembly of `app.py`).

Conventions of the shallow embedding:
* Python strings are Lean `String`s; `str.strip()` is `pyStrip` (the ASCII
  whitespace characters stripped by Python);
* Python `int(...)` is `pyInt : String → Option Int` (`none` models a raised
  `ValueError`); `str.isdigit()` is `pyIsDigit` (ASCII digits);
* `datetime(...)` is `mkDatetime?` (`none` models a raised `ValueError` for
  out-of-range components);
* Python dicts holding heterogeneous fixed keys are Lean structures; dicts
  used as key/value tables are ordered association lists where a later
  binding overrides an earlier one, as in Python insertion semantics;
* a function that can raise an exception past its own boundary returns an
  `Option`, with `none` for the escaping exception;
* the standard-library JSON decoder (`json.loads`) is an explicit parameter
  `jloads : String → Option J` of the HTTP-client embedding, since it is
  external to the repository.
-/

/-! ### Python string primitives -/

/-- The characters removed by Python `str.strip()` on ASCII text. -/
def isPySpace (c : Char) : Bool :=
  c = ' ' || c = '\t' || c = '\n' || c = '\r' || c = '\x0b' || c = '\x0c'

/-- Remove leading and trailing whitespace from a character list. -/
def pyStripList (l : List Char) : List Char :=
  ((l.dropWhile isPySpace).reverse.dropWhile isPySpace).reverse

/-- Python `str.strip()`. -/
def pyStrip (s : String) : String := ⟨pyStripList s.data⟩

/-- Remove leading and trailing characters drawn from `cs` (Python
`str.strip(chars)`). -/
def pyStripCharsList (cs : List Char) (l : List Char) : List Char :=
  ((l.dropWhile (cs.contains ·)).reverse.dropWhile (cs.contains ·)).reverse

/-- Python `str.strip(chars)`. -/
def pyStripChars (cs : List Char) (s : String) : String :=
  ⟨pyStripCharsList cs s.data⟩

/-- Decide whether `needle` occurs at the head of `hay`. -/
def listStartsWith : List Char → List Char → Bool
  | [], _ => true
  | _ :: _, [] => false
  | a :: as, b :: bs => a = b && listStartsWith as bs

/-- Decide whether `needle` occurs anywhere in `hay` (Python `in` on `str`). -/
def listContainsSub (needle : List Char) : List Char → Bool
  | [] => listStartsWith needle []
  | c :: t => listStartsWith needle (c :: t) || listContainsSub needle t

/-- Python `needle in hay` for strings. -/
def strContains (needle hay : String) : Bool :=
  listContainsSub needle.data hay.data

/-- Python `str.lower()` on ASCII text. -/
def pyLower (s : String) : String := ⟨s.data.map Char.toLower⟩

/-- Python `str.isdigit()` restricted to ASCII digits: non-empty and all
characters are `0`–`9`. -/
def pyIsDigit (s : String) : Bool := !s.data.isEmpty && s.data.all Char.isDigit

/-- Numeric value of an all-digit character list. -/
def digitsToNat (l : List Char) : Nat :=
  l.foldl (fun acc c => acc * 10 + (c.toNat - '0'.toNat)) 0

/-- Tail of a Python integer-literal digit part: digits, with each
underscore followed by a digit. -/
def pyIntRest : List Char → Bool
  | [] => true
  | c :: rest =>
    if c = '_' then
      match rest with
      | [] => false
      | d :: r2 => d.isDigit && pyIntRest r2
    else c.isDigit && pyIntRest rest

/-- Check that a character list is a valid Python integer-literal digit part:
one or more digits with single underscores allowed between digits. -/
def pyIntDigitsOk : List Char → Bool
  | [] => false
  | c :: rest => c.isDigit && pyIntRest rest

/-- Value of a Python digit part, ignoring underscores. -/
def pyIntDigitsVal (l : List Char) : Nat :=
  digitsToNat (l.filter (· ≠ '_'))

/-- Python `int(s)` on ASCII text: strips whitespace, accepts an optional
sign and a digit string (underscore separators allowed); `none` models the
`ValueError` raised on any other input. -/
def pyInt (s : String) : Option Int :=
  match (pyStrip s).data with
  | [] => none
  | c :: rest =>
    if c = '+' then (if pyIntDigitsOk rest then some (pyIntDigitsVal rest) else none)
    else if c = '-' then (if pyIntDigitsOk rest then some (-(pyIntDigitsVal rest : Int)) else none)
    else if pyIntDigitsOk (c :: rest) then some (pyIntDigitsVal (c :: rest)) else none

/-- Accumulating scanner for whitespace splitting. -/
def wordsAux : List Char → List Char → List String
  | [], acc => if acc.isEmpty then [] else [⟨acc.reverse⟩]
  | c :: t, acc =>
    if isPySpace c then
      if acc.isEmpty then wordsAux t [] else ⟨acc.reverse⟩ :: wordsAux t []
    else wordsAux t (c :: acc)

/-- Python `str.split()` with no argument: split on whitespace runs,
dropping empty pieces. -/
def pySplitWs (s : String) : List String := wordsAux s.data []

/-- Accumulating scanner for single-character splitting. -/
def pySplitCharAux (sep : Char) : List Char → List Char → List String
  | [], acc => [⟨acc.reverse⟩]
  | c :: t, acc =>
    if c = sep then ⟨acc.reverse⟩ :: pySplitCharAux sep t []
    else pySplitCharAux sep t (c :: acc)

/-- Python `str.split(sep)` for a one-character separator: empty pieces
are kept. -/
def pySplitChar (sep : Char) (s : String) : List String := pySplitCharAux sep s.data []

/-- Python `str.startswith(pre)`. -/
def pyStartsWith (s pre : String) : Bool := listStartsWith pre.data s.data

/-- Python `str.endswith(suf)`. -/
def pyEndsWith (s suf : String) : Bool := listStartsWith suf.data.reverse s.data.reverse

/-- Python `s[:n]`. -/
def pyTake (n : Nat) (s : String) : String := ⟨s.data.take n⟩

/-- Python `sep.join(pieces)`. -/
def joinWith (sep : String) : List String → String
  | [] => ""
  | [x] => x
  | x :: rest => x ++ sep ++ joinWith sep rest

/-! ### Python `datetime` model -/

/-- A naive Python `datetime.datetime` value (no timezone). -/
structure PyDateTime where
  year : Int
  month : Int
  day : Int
  hour : Int
  minute : Int
  second : Int
deriving Repr, DecidableEq

/-- Gregorian leap-year test used by `datetime`. -/
def isLeapYear (y : Int) : Bool :=
  (y % 4 = 0 && y % 100 ≠ 0) || y % 400 = 0

/-- Days in a month of the proleptic Gregorian calendar. -/
def daysInMonth (y m : Int) : Int :=
  if m = 2 then (if isLeapYear y then 29 else 28)
  else if m = 4 || m = 6 || m = 9 || m = 11 then 30
  else 31

/-- The `datetime(year, month, day, hour, minute, second)` constructor:
`none` models the `ValueError` raised on an out-of-range component
(`MINYEAR = 1`, `MAXYEAR = 9999`). -/
def mkDatetime? (y mo d h mi s : Int) : Option PyDateTime :=
  if 1 ≤ y ∧ y ≤ 9999 ∧ 1 ≤ mo ∧ mo ≤ 12 ∧ 1 ≤ d ∧ d ≤ daysInMonth y mo ∧
     0 ≤ h ∧ h ≤ 23 ∧ 0 ≤ mi ∧ mi ≤ 59 ∧ 0 ≤ s ∧ s ≤ 59 then
    some ⟨y, mo, d, h, mi, s⟩
  else none

/-- Zero-pad the decimal representation of a non-negative integer. -/
def padNum (width : Nat) (n : Int) : String :=
  let t := toString n.toNat
  ⟨List.replicate (width - t.length) '0'⟩ ++ t

/-- Python `datetime.isoformat()` for whole-second naive datetimes. -/
def PyDateTime.isoformat (dt : PyDateTime) : String :=
  padNum 4 dt.year ++ "-" ++ padNum 2 dt.month ++ "-" ++ padNum 2 dt.day ++ "T" ++
  padNum 2 dt.hour ++ ":" ++ padNum 2 dt.minute ++ ":" ++ padNum 2 dt.second

/-! ### Embedded-script array parser (`parsers.py`, class `MatchDateParser`) -/

/-- The single-quote character, used by the quote-aware tokenizer. -/
def quoteChar : Char := '\''

/-- `quoteChar` as a one-character string, for building test payloads. -/
def quoteStr : String := ⟨[quoteChar]⟩

/-- State of the character scanner of `MatchDateParser._parse_match_data`:
accumulated fields, current field, inside-quotes flag. -/
structure TokState where
  parts : List String
  current : String
  in_quotes : Bool

/-- One step of the quote-aware character scanner (`parsers.py` lines
71–83): a quote toggles the in-quotes flag (emitting the quoted field
verbatim on close), a comma outside quotes emits the stripped current field
when non-empty, and any other character is appended to the current field. -/
def tokStep (st : TokState) (c : Char) : TokState :=
  if c = quoteChar && !st.in_quotes then
    { st with in_quotes := true }
  else if c = quoteChar && st.in_quotes then
    { parts := st.parts ++ [st.current], current := "", in_quotes := false }
  else if c = ',' && !st.in_quotes then
    if pyStrip st.current ≠ "" then
      { parts := st.parts ++ [pyStrip st.current], current := "", in_quotes := st.in_quotes }
    else
      { st with current := "" }
  else
    { st with current := st.current.push c }

/-- The full tokenizer of `_parse_match_data`: fold the scanner over the
record body, then flush a trailing non-blank field (`parsers.py` lines
67–86). -/
def tokenizeParts (s : String) : List String :=
  let st := s.data.foldl tokStep ⟨[], "", false⟩
  if pyStrip st.current ≠ "" then st.parts ++ [pyStrip st.current] else st.parts

/-- `MatchDateParser._parse_datetime` (`parsers.py` lines 111–128): split
the raw field on commas; with at least six pieces, convert the first six to
integers and build a `datetime`; any conversion or constructor failure, or
fewer than six pieces, yields `None`. -/
def MatchDateParser_parse_datetime (datetime_str : String) : Option PyDateTime :=
  let parts := pySplitChar ',' datetime_str
  if 6 ≤ parts.length then do
    let year ← pyInt (parts.getD 0 "")
    let month ← pyInt (parts.getD 1 "")
    let day ← pyInt (parts.getD 2 "")
    let hour ← pyInt (parts.getD 3 "")
    let minute ← pyInt (parts.getD 4 "")
    let second ← pyInt (parts.getD 5 "")
    mkDatetime? year month day hour minute second
  else none

/-- One parsed match record (the dict built at `parsers.py` lines 96–105). -/
structure MatchRecord where
  match_id : Option Int
  league_id : Option Int
  home_team_id : Option Int
  away_team_id : Option Int
  home_team : String
  away_team : String
  match_time : Option PyDateTime
  match_datetime_raw : String
deriving Repr, DecidableEq

/-- `MatchDateParser._parse_match_data` (`parsers.py` lines 63–109):
tokenize the record body; reject it (`None`) when fewer than 7 positional
fields result; otherwise build the record, with `int` coercion of the id
fields guarded by `isdigit` and the datetime parsed leniently.  The
enclosing `try` cannot fire in this embedding because every step is total. -/
def MatchDateParser_parse_match_data (data_str : String) : Option MatchRecord :=
  let parts := tokenizeParts data_str
  if parts.length < 7 then none
  else
    let datetime_str := if 6 < parts.length then parts.getD 6 "" else ""
    let match_time := MatchDateParser_parse_datetime datetime_str
    some
      { match_id := if pyIsDigit (parts.getD 0 "") then pyInt (parts.getD 0 "") else none
        league_id :=
          if 1 < parts.length && pyIsDigit (parts.getD 1 "") then pyInt (parts.getD 1 "") else none
        home_team_id :=
          if 2 < parts.length && pyIsDigit (parts.getD 2 "") then pyInt (parts.getD 2 "") else none
        away_team_id :=
          if 3 < parts.length && pyIsDigit (parts.getD 3 "") then pyInt (parts.getD 3 "") else none
        home_team := if 4 < parts.length then parts.getD 4 "" else ""
        away_team := if 5 < parts.length then parts.getD 5 "" else ""
        match_time := match_time
        match_datetime_raw := datetime_str }

/-- Scan a body up to the first `];` terminator; fail on a newline or end of
input first (the regex `.` does not cross newlines and `(.*?)` is
non-greedy). Returns the body and the remaining input after `];`. -/
def findBody : List Char → Option (List Char × List Char)
  | [] => none
  | ']' :: ';' :: rest => some ([], rest)
  | c :: rest =>
    if c = '\n' then none
    else (findBody rest).map (fun p => (c :: p.1, p.2))

/-- Try to match the regular expression
`<letter>\[(\d+)\]=\[(.*?)\];` at the head of the input, returning the
captured index, the captured body, and the input remaining after the
match. -/
def tryMatchRecord (letter : Char) : List Char → Option (Nat × String × List Char)
  | a :: '[' :: rest =>
    if a = letter then
      match rest.span Char.isDigit with
      | (ds, ']' :: '=' :: '[' :: rest2) =>
        if ds.isEmpty then none
        else
          match findBody rest2 with
          | some (body, rest3) => some (digitsToNat ds, ⟨body⟩, rest3)
          | none => none
      | _ => none
    else none
  | _ => none

/-- Left-to-right non-overlapping scan for `<letter>[i]=[body];` records,
as performed by `re.finditer`.  The fuel is an upper bound on the number of
scan steps; every step either consumes one character (no match here) or
the whole matched text (at least eight characters), so an initial fuel of
the input length is exact. -/
def findRecordsAux (letter : Char) : Nat → List Char → List (Nat × String)
  | 0, _ => []
  | _, [] => []
  | fuel + 1, c :: t =>
    match tryMatchRecord letter (c :: t) with
    | some (i, b, rest) => (i, b) :: findRecordsAux letter fuel rest
    | none => findRecordsAux letter fuel t

/-- All `<letter>[i]=[body];` records of a blob, in order. -/
def findRecords (letter : Char) (s : String) : List (Nat × String) :=
  findRecordsAux letter s.data.length s.data

/-- `MatchDateParser._parse_matches` (`parsers.py` lines 40–61): iterate
over every `A[n]=[...]` record of the blob and collect the successfully
parsed ones; a record whose parse yields `None` (or raises) is skipped and
the loop continues. -/
def MatchDateParser_parse_matches (js_code : String) : List MatchRecord :=
  (findRecords 'A' js_code).filterMap (fun r => MatchDateParser_parse_match_data r.2)

/-- One league record (`parsers.py` lines 143–148). -/
structure LeagueRecord where
  league_id : String
  league_code : String
  league_name : String
  color : Option String
deriving Repr, DecidableEq

/-- `MatchDateParser._parse_leagues` (`parsers.py` lines 130–152): simple
comma-split tokenization with whitespace and quote trimming; records with
fewer than three fields are skipped.  The resulting Python dict keyed by
the `B`-array index is modeled as an ordered association list. -/
def MatchDateParser_parse_leagues (js_code : String) : List (Nat × LeagueRecord) :=
  (findRecords 'B' js_code).filterMap (fun r =>
    let parts := (pySplitChar ',' r.2).map (fun p => pyStripChars [quoteChar, '"'] (pyStrip p))
    if 3 ≤ parts.length then
      some (r.1,
        { league_id := parts.getD 0 ""
          league_code := parts.getD 1 ""
          league_name := parts.getD 2 ""
          color := if 3 < parts.length then some (parts.getD 3 "") else none })
    else none)

/-- Python `dict.get` over the association list representing the league
table: the key is the (optional) league id of a match record; a missing or
`None` key yields no entry, and a later binding overrides an earlier one. -/
def leaguesGet (leagues : List (Nat × LeagueRecord)) (key : Option Int) : Option LeagueRecord :=
  match key with
  | some (Int.ofNat n) => (leagues.reverse.find? (fun kv => kv.1 = n)).map Prod.snd
  | _ => none

/-! ### Score cleanup (`parsers.py`, `clean_score_data`) -/

/-- Python `s[1:-1]`: drop the first and last character. -/
def dropEnds (s : String) : String := ⟨(s.data.drop 1).dropLast⟩

/-- `clean_score_data` (`parsers.py` lines 178–188): empty input maps to
the empty string; otherwise strip whitespace, remove one layer of enclosing
parentheses when the text both starts with `(` and ends with `)`, and strip
again. -/
def clean_score_data (text : String) : String :=
  if text = "" then ""
  else
    let cleaned := pyStrip text
    let cleaned :=
      if pyStartsWith cleaned "(" && pyEndsWith cleaned ")" then dropEnds cleaned else cleaned
    pyStrip cleaned

/-! ### Upstream HTTP client and fan-out orchestrator (`http_client.py`) -/

/-- The network behavior observed for one request: either a client-side
error (connection, timeout, DNS — `aiohttp.ClientError`) or a response with
a status code, a `content-type` header value, and a body. -/
inductive NetBehavior where
  | netError (details : String)
  | resp (status : Nat) (contentType : String) (body : String)
deriving Repr, DecidableEq

/-- The payload slot of one fetch result.  The Python code returns either
raw text (HTML flow), a decoded JSON value, or one of several
error-shaped dicts; `J` is the type of decoded JSON values. -/
inductive Payload (J : Type) where
  | html (text : String)
  | json (j : J)
  | errNotJson (error : String) (content : String)
  | errFetch (error : String) (details : String)
  | errDecode (error : String) (details : String)
deriving Repr, DecidableEq

/-- One settled fetch outcome: the tuple `(key, payload, shape, fetch_time)`
returned by `fetch_url`.  Elapsed time is kept abstract as a `Nat` supplied
by the per-key timing oracle. -/
structure UpstreamResult (J : Type) where
  key : String
  payload : Payload J
  shape : String
  elapsed : Nat
deriving Repr, DecidableEq

/-- `fetch_url` (`http_client.py` lines 46–89) as a pure function of the
network behavior observed for its own request.  `jloads` is the strict
standard-library JSON decoder; `elapsed` the measured fetch time.
Branches, in source order: a client error (including the
`raise_for_status` rejection of a status ≥ 400) yields an error payload;
the `h2h_details` key returns the body as HTML; a JSON-ish content type
decodes via `response.json()`, whose decode failure is the
`json.JSONDecodeError` branch; any other content type attempts the same
strict decode anyway and, only if that fails, returns the error payload
carrying the first 200 characters of the body. -/
def fetch_url {J : Type} (jloads : String → Option J) (net : NetBehavior) (elapsed : Nat)
    (key url : String) : UpstreamResult J :=
  match net with
  | .netError details =>
    ⟨key, .errFetch ("Failed to fetch " ++ url) details, "error", elapsed⟩
  | .resp status contentType body =>
    if 400 ≤ status then
      ⟨key, .errFetch ("Failed to fetch " ++ url) ("status " ++ toString status), "error", elapsed⟩
    else if key = "h2h_details" then
      ⟨key, .html body, "html", elapsed⟩
    else
      let ct := pyLower contentType
      if strContains "application/json" ct || strContains "text/javascript" ct then
        match jloads body with
        | some j => ⟨key, .json j, "json", elapsed⟩
        | none =>
          ⟨key, .errDecode ("Failed to decode JSON from " ++ url) "JSONDecodeError",
            "error", elapsed⟩
      else
        match jloads body with
        | some j => ⟨key, .json j, "json", elapsed⟩
        | none =>
          ⟨key, .errNotJson "Response is not JSON" (pyTake 200 body), "error", elapsed⟩

/-- `fetch_all_urls` (`http_client.py` lines 91–102): one `fetch_url` task
per `(key, url)` item of the request dict, gathered with
`return_exceptions=True`; since `fetch_url` catches every exception it can
raise, the gathered list is exactly the list of settled results in task
order.  The network and timing oracles are keyed by request key: each
sub-request observes only its own slot of the oracles. -/
def fetch_all_urls {J : Type} (jloads : String → Option J) (net : String → NetBehavior)
    (elapsed : String → Nat) (urls : List (String × String)) : List (UpstreamResult J) :=
  urls.map (fun ku => fetch_url jloads (net ku.1) (elapsed ku.1) ku.1 ku.2)

/-! ### Date-listing result assembly (`app.py`, `get_matches_by_date`) -/

/-- The parsed payload of one date response (`parse_date_response`),
restricted to the parts the assembly reads: the match list (Python key
`matches`, renamed because `matches` is reserved in Lean) and the league
lookup table. -/
structure ParsedDateData where
  matchList : List MatchRecord
  leagues : List (Nat × LeagueRecord)
deriving Repr, DecidableEq

/-- Inline league sub-object of one assembled match (`app.py` lines
480–484). -/
structure LeagueOut where
  id : Option Int
  name : String
  code : String
deriving Repr, DecidableEq

/-- One assembled match of the date endpoint (`app.py` lines 475–485). -/
structure DateMatchOut where
  match_id : Option Int
  home_team : String
  away_team : String
  match_time : Option String
  league : LeagueOut
deriving Repr, DecidableEq

/-- Formatting of one accepted match record (`app.py` lines 472–485):
resolve the league by id with `{}` as default, emit the ISO kickoff. -/
def formatDateMatch (leagues : List (Nat × LeagueRecord)) (m : MatchRecord) : DateMatchOut :=
  let league_info := leaguesGet leagues m.league_id
  { match_id := m.match_id
    home_team := m.home_team
    away_team := m.away_team
    match_time := match m.match_time with
      | some dt => some dt.isoformat
      | none => none
    league :=
      { id := m.league_id
        name := match league_info with
          | some li => li.league_name
          | none => "Unknown"
        code := match league_info with
          | some li => li.league_code
          | none => "" } }

/-- The filtering loop of `get_matches_by_date` (`app.py` lines 466–485):
a parsed record is appended to the output list exactly when its
`match_time` is truthy (a `datetime` is always truthy, so: non-`None`). -/
def assembleDateMatches (parsed : ParsedDateData) : List DateMatchOut :=
  parsed.matchList.foldl
    (fun acc m =>
      if m.match_time.isSome then acc ++ [formatDateMatch parsed.leagues m] else acc)
    []

/-- The `match_count` field of the endpoint result (`app.py` line 489). -/
def dateMatchCount (parsed : ParsedDateData) : Nat :=
  (assembleDateMatches parsed).length

/-! ### HTML document model (BeautifulSoup shallow embedding) -/

/-- A parsed HTML node: an element with tag name, attributes and children,
or a text node. -/
inductive Html where
  | text (s : String)
  | elem (tag : String) (attrs : List (String × String)) (children : List Html)

/-- A default node for guarded list indexing. -/
def nilHtml : Html := .text ""

/-- `tag.get(name)`: the value of an attribute, if present. -/
def Html.attr : Html → String → Option String
  | .text _, _ => none
  | .elem _ attrs _, name => (attrs.find? (fun kv => kv.1 = name)).map Prod.snd

/-- `tag.get(name, default)`. -/
def Html.attrD (h : Html) (name dflt : String) : String := (h.attr name).getD dflt

/-- `tag.text` / `get_text()`: concatenation of every text node of the
subtree. -/
def Html.getText : Html → String
  | .text s => s
  | .elem _ _ cs => go cs
where
  go : List Html → String
    | [] => ""
    | c :: cs => c.getText ++ go cs

/-- All descendants of a node, in document (preorder) order; the node
itself is excluded, as in BeautifulSoup searches. -/
def Html.descendants : Html → List Html
  | .text _ => []
  | .elem _ _ cs => go cs
where
  go : List Html → List Html
    | [] => []
    | c :: cs => c :: c.descendants ++ go cs

/-- `soup.find_all(criteria)`: every matching descendant in document
order. -/
def findAllE (p : Html → Bool) (h : Html) : List Html := (Html.descendants h).filter p

/-- `soup.find(criteria)`: the first matching descendant, if any. -/
def findE (p : Html → Bool) (h : Html) : Option Html := (findAllE p h).head?

/-- First matching descendant in preorder together with its parent node
and the list of its following siblings; used to model BeautifulSoup's
`.parent` and `.next_sibling` navigation from a found node. -/
def findCtx (p : Html → Bool) : Html → Option (Html × Html × List Html)
  | .text _ => none
  | .elem t a cs => go (.elem t a cs) cs
where
  go (parent : Html) : List Html → Option (Html × Html × List Html)
    | [] => none
    | c :: rest =>
      if p c then some (c, parent, rest)
      else
        match findCtx p c with
        | some r => some r
        | none => go parent rest

/-- The class list of an element: the `class` attribute split on
whitespace. -/
def Html.classes (h : Html) : List String := pySplitWs (h.attrD "class" "")

/-- Tag-name criterion (`find('td')`). -/
def isTag (t : String) : Html → Bool
  | .text _ => false
  | .elem tg _ _ => tg = t

/-- `find(tag, class_='c')`: exact class-token membership. -/
def elemWithClass (t c : String) (h : Html) : Bool := isTag t h && h.classes.contains c

/-- `find(tag, class_=re.compile(sub))`: some class token matches the
pattern, i.e. contains `sub` (none of the patterns used is anchored). -/
def elemWithClassSub (t sub : String) (h : Html) : Bool :=
  isTag t h && h.classes.any (fun c => strContains sub c)

/-- `find(tag, id='i')`: exact id-attribute match. -/
def elemWithId (t i : String) (h : Html) : Bool := isTag t h && h.attr "id" == some i

/-- `find(tag, title='t')`: exact title-attribute match. -/
def elemWithTitle (t ti : String) (h : Html) : Bool := isTag t h && h.attr "title" == some ti

/-- Match of the regex `tr\d+_\d+` at the head of a character list. -/
def trPatAt (l : List Char) : Bool :=
  match l with
  | 't' :: 'r' :: rest =>
    (match rest.span Char.isDigit with
     | (ds, '_' :: rest2) => !ds.isEmpty && !(rest2.takeWhile Char.isDigit).isEmpty
     | _ => false)
  | _ => false

/-- `re.compile(r"tr\d+_\d+").search`: the pattern occurs somewhere in the
string. -/
def hasTrPat : List Char → Bool
  | [] => false
  | c :: t => trPatAt (c :: t) || hasTrPat t

/-- `find_all('tr', id=re.compile(r"tr\d+_\d+"))` row criterion: a `tr`
element whose `id` attribute is present and matches the pattern. -/
def trDataRow (h : Html) : Bool :=
  isTag "tr" h &&
    (match h.attr "id" with
     | some v => hasTrPat v.data
     | none => false)

/-- Python `str(node)` on a BeautifulSoup node: the text of a text node,
or the serialized markup of an element. -/
def htmlStr : Html → String
  | .text s => s
  | .elem t a cs =>
    "<" ++ t ++ a.foldl (fun acc kv => acc ++ " " ++ kv.1 ++ "=\"" ++ kv.2 ++ "\"") "" ++ ">" ++
      go cs ++ "</" ++ t ++ ">"
where
  go : List Html → String
    | [] => ""
    | c :: rest => htmlStr c ++ go rest

/-! ### HTML extractors (`parsers.py`, lines 227–486) -/

/-- One player row (`parse_player_list`, `parsers.py` lines 234–239). -/
structure PlayerData where
  player_id : Option String
  position : String
  number : String
  name : String
deriving Repr, DecidableEq

/-- `parse_player_list` (`parsers.py` lines 227–241): an absent container
yields `[]`; otherwise each `div.player-row` descendant yields one player
record, with per-field fallbacks to the empty string. -/
def parse_player_list : Option Html → List PlayerData
  | none => []
  | some container =>
    (findAllE (elemWithClass "div" "player-row") container).map (fun player_row =>
      { player_id := player_row.attr "playerid"
        position := match findE (isTag "b") player_row with
          | some b => pyStrip b.getText
          | none => ""
        number := match findE (isTag "span") player_row with
          | some s => pyStrip s.getText
          | none => ""
        name := match findE (isTag "a") player_row with
          | some a => pyStrip a.getText
          | none => "" })

/-- The two logical blocks produced by `parse_standings_table`.  A row is
the dict `{headers[i]: cells[i].text.strip()}`, modeled as ordered
key/value pairs. -/
structure StandingsTable where
  full_time : List (List (String × String))
  half_time : List (List (String × String))
deriving Repr, DecidableEq

/-- The inner `parse_block` of `parse_standings_table` (`parsers.py` lines
247–257): with fewer than two rows the block is empty; otherwise the first
row's `th` texts are the headers and a following row is accepted exactly
when its `td` count equals the header count. -/
def parse_block (rows_block : List Html) : List (List (String × String)) :=
  if rows_block.length < 2 then []
  else
    match rows_block with
    | [] => []
    | hdr :: rest =>
      let headers := (findAllE (isTag "th") hdr).map (fun th => pyStrip th.getText)
      rest.filterMap (fun data_row =>
        let cells := findAllE (isTag "td") data_row
        if cells.length = headers.length then
          some (headers.zip (cells.map (fun c => pyStrip c.getText)))
        else none)

/-- The split-row search of `parse_standings_table` (`parsers.py` lines
258–262): the first row, with its index, whose full text contains `"HT"`
and that contains a `th` descendant. -/
def standingsSplitAux : Nat → List Html → Option (Nat × Html)
  | _, [] => none
  | i, r :: rest =>
    if strContains "HT" r.getText && (findE (isTag "th") r).isSome then some (i, r)
    else standingsSplitAux (i + 1) rest

/-- `parse_standings_table` (`parsers.py` lines 243–270).  When no split
row is found the result is the empty pair of blocks.  When a split row is
found, `all_rows[1]` is read unguarded; on a table whose row list has
fewer than two rows this raises `IndexError`, modeled as `none`. -/
def parse_standings_table (table : Html) : Option StandingsTable :=
  let all_rows := findAllE (isTag "tr") table
  match standingsSplitAux 0 all_rows with
  | none => some ⟨[], []⟩
  | some (split_index, ht_headers_row) =>
    match all_rows.get? 1 with
    | none => none
    | some ft_headers_row =>
      let ft_rows := (all_rows.drop 2).take (split_index - 2)
      let ht_rows := all_rows.drop (split_index + 1)
      some
        { full_time := parse_block (ft_headers_row :: ft_rows)
          half_time := parse_block (ht_headers_row :: ht_rows) }

/-- The standings dict assembled by `parse_standings`: each key is present
only when the corresponding side's div and table were found. -/
structure Standings where
  home_team_standings : Option StandingsTable
  away_team_standings : Option StandingsTable
deriving Repr, DecidableEq

/-- `parse_standings` (`parsers.py` lines 331–347): with no `#porletP4`
container the result is the **empty dict** (both keys absent) — not an
error marker.  An `IndexError` escaping `parse_standings_table`
propagates (outer `none`). -/
def parse_standings (soup : Html) : Option Standings := do
  match findE (elemWithId "div" "porletP4") soup with
  | none => pure ⟨none, none⟩
  | some standings_parent_div =>
    let home ←
      match findE (elemWithClass "div" "home-div") standings_parent_div with
      | none => pure none
      | some home_div =>
        match findE (elemWithClass "table" "team-table-home") home_div with
        | none => pure none
        | some home_table => (parse_standings_table home_table).map some
    let away ←
      match findE (elemWithClass "div" "guest-div") standings_parent_div with
      | none => pure none
      | some guest_div =>
        match findE (elemWithClass "table" "team-table-guest") guest_div with
        | none => pure none
        | some guest_table => (parse_standings_table guest_table).map some
    pure ⟨home, away⟩

/-- One row of a historical match list (`parse_match_list_table`,
`parsers.py` lines 317–327). -/
structure MatchListRow where
  league : String
  date : String
  home_team : String
  score : String
  ht_score : String
  away_team : String
  corner : String
  ht_corner : String
  result : String
deriving Repr, DecidableEq

/-- The result-column fallback loop of `parse_match_list_table`
(`parsers.py` lines 309–315): first cell among indices 6–11 whose stripped
text is not blank and not a `-`/`?` placeholder. -/
def resultFallback (cells : List Html) : List Nat → String
  | [] => ""
  | i :: rest =>
    if i < cells.length then
      let potential_result := pyStrip (cells.getD i nilHtml).getText
      if potential_result ≠ "" && potential_result ≠ "-" && potential_result ≠ "?" then
        potential_result
      else resultFallback cells rest
    else resultFallback cells rest

/-- `parse_match_list_table` (`parsers.py` lines 272–329): with no table of
the given id the result is the **empty list** — not an error marker.  Data
rows are identified by the `tr<int>_<int>` id pattern; rows with fewer than
8 cells are skipped; score/corner figures come from nested class-tagged
spans with `clean_score_data` applied. -/
def parse_match_list_table (soup : Html) (table_id : String) : List MatchListRow :=
  match findE (elemWithId "table" table_id) soup with
  | none => []
  | some table =>
    (findAllE trDataRow table).filterMap (fun row =>
      let cells := findAllE (isTag "td") row
      if cells.length < 8 then none
      else
        let score_cell := findE (elemWithClassSub "span" "fscore_") (cells.getD 3 nilHtml)
        let ht_score_cell := findE (elemWithClassSub "span" "hscore_") (cells.getD 3 nilHtml)
        let corner_cell := findE (elemWithClassSub "span" "fcorner_") (cells.getD 5 nilHtml)
        let ht_corner_cell := findE (elemWithClassSub "span" "hcorner_") (cells.getD 5 nilHtml)
        let date_text :=
          if 1 < cells.length then
            let d := pyStrip (cells.getD 1 nilHtml).getText
            if d = "" then
              match
                match findE (isTag "span") (cells.getD 1 nilHtml) with
                | some e => some e
                | none => findE (isTag "a") (cells.getD 1 nilHtml)
              with
              | some date_element => pyStrip date_element.getText
              | none => ""
            else d
          else ""
        let result_text :=
          if 11 < cells.length then pyStrip (cells.getD 11 nilHtml).getText
          else if 7 < cells.length then pyStrip (cells.getD 7 nilHtml).getText
          else ""
        let result_text :=
          if result_text = "" then resultFallback cells [6, 7, 8, 9, 10, 11]
          else result_text
        some
          { league := if 0 < cells.length then pyStrip (cells.getD 0 nilHtml).getText else ""
            date := date_text
            home_team := if 2 < cells.length then pyStrip (cells.getD 2 nilHtml).getText else ""
            score := match score_cell with
              | some c => clean_score_data c.getText
              | none => ""
            ht_score := match ht_score_cell with
              | some c => clean_score_data c.getText
              | none => ""
            away_team := if 4 < cells.length then pyStrip (cells.getD 4 nilHtml).getText else ""
            corner := match corner_cell with
              | some c => clean_score_data c.getText
              | none => ""
            ht_corner := match ht_corner_cell with
              | some c => clean_score_data c.getText
              | none => ""
            result := result_text })

/-- Result of `parse_injury_suspension`: the not-found marker dict or the
two player lists. -/
inductive InjurySuspension where
  | notFound (error : String)
  | snapshot (home_team : List PlayerData) (away_team : List PlayerData)
deriving Repr, DecidableEq

/-- `parse_injury_suspension` (`parsers.py` lines 349–361): with no
`#porletP13` container the explicit not-found marker is returned. -/
def parse_injury_suspension (soup : Html) : InjurySuspension :=
  match findE (elemWithId "div" "porletP13") soup with
  | none => .notFound "Injury and Suspension section (porletP13) not found."
  | some injury_section =>
    let home := match findE (elemWithId "div" "injuryH") injury_section with
      | none => []
      | some home_div => parse_player_list (findE (elemWithClass "div" "player-list") home_div)
    let away := match findE (elemWithId "div" "injuryG") injury_section with
      | none => []
      | some guest_div => parse_player_list (findE (elemWithClass "div" "player-list") guest_div)
    .snapshot home away

/-- One side of the last-match lineups (`parsers.py` lines 369–382). -/
structure TeamLineup where
  formation : String
  starters : List PlayerData
  substitutes : List PlayerData
deriving Repr, DecidableEq

/-- Result of `parse_last_match_lineups`: the not-found marker, or the two
sides, each `none` when its div is absent (the `{}` retained from the
initial dict). -/
inductive LineupResult where
  | notFound (error : String)
  | lineups (home_team : Option TeamLineup) (away_team : Option TeamLineup)
deriving Repr, DecidableEq

/-- One side's lineup parse (`parsers.py` lines 369–375 and 376–382). -/
def parseLineupSide (side_div : Html) : TeamLineup :=
  let formation := match findE (elemWithClass "div" "injury") side_div with
    | some f => pyStrip f.getText
    | none => ""
  let player_lists := findAllE (elemWithClass "div" "player-list") side_div
  { formation := formation
    starters := if 0 < player_lists.length then parse_player_list (player_lists.get? 0) else []
    substitutes := if 1 < player_lists.length then parse_player_list (player_lists.get? 1) else [] }

/-- `parse_last_match_lineups` (`parsers.py` lines 363–383): with no
`#porletP14` container the explicit not-found marker is returned. -/
def parse_last_match_lineups (soup : Html) : LineupResult :=
  match findE (elemWithId "div" "porletP14") soup with
  | none => .notFound "Last Match Lineups section (porletP14) not found."
  | some lineup_section =>
    let home := (findE (elemWithId "div" "lineupH") lineup_section).map parseLineupSide
    let away := (findE (elemWithId "div" "lineupG") lineup_section).map parseLineupSide
    .lineups home away

/-- One upcoming-fixture row (`parsers.py` lines 399–405). -/
structure FixtureRow where
  league : String
  date : String
  type : String
  opponent : String
  countdown : String
deriving Repr, DecidableEq

/-- Result of `parse_fixture`: the not-found marker or the two sides'
fixture lists. -/
inductive FixtureResult where
  | notFound (error : String)
  | fixtures (home_team_fixture : List FixtureRow) (away_team_fixture : List FixtureRow)
deriving Repr, DecidableEq

/-- The inner `parse_fixture_table` (`parsers.py` lines 391–406): skip the
header row, accept exactly the rows with exactly five cells. -/
def parse_fixture_table : Option Html → List FixtureRow
  | none => []
  | some table =>
    ((findAllE (isTag "tr") table).drop 1).filterMap (fun row =>
      let cells := findAllE (isTag "td") row
      if cells.length = 5 then
        some
          { league := (cells.getD 0 nilHtml).attrD "title" ""
            date := pyStrip (cells.getD 1 nilHtml).getText
            type := pyStrip (cells.getD 2 nilHtml).getText
            opponent := pyStrip (cells.getD 3 nilHtml).getText
            countdown := pyStrip (cells.getD 4 nilHtml).getText }
      else none)

/-- `parse_fixture` (`parsers.py` lines 385–413): with no `#porletP12`
container the explicit not-found marker is returned. -/
def parse_fixture (soup : Html) : FixtureResult :=
  match findE (elemWithId "div" "porletP12") soup with
  | none => .notFound "Fixture section (porletP12) not found."
  | some fixture_section =>
    let home := match findE (elemWithClass "div" "home-div") fixture_section with
      | none => []
      | some home_div => parse_fixture_table (findE (isTag "table") home_div)
    let away := match findE (elemWithClass "div" "guest-div") fixture_section with
      | none => []
      | some guest_div => parse_fixture_table (findE (isTag "table") guest_div)
    .fixtures home away

/-- The score block of the match header (`parsers.py` lines 446–473). -/
structure ScoreInfo where
  status : String
  home_score : String
  away_score : String
  ht_score : String
  ht_home_score : String
  ht_away_score : String
deriving Repr, DecidableEq

/-- The structured output of `parse_match_info` (`parsers.py` lines
476–486). -/
structure MatchInfo where
  league : String
  match_time_utc : String
  home_team_name : String
  home_team_logo_url : String
  away_team_name : String
  away_team_logo_url : String
  stadium : String
  weather : String
  score_info : ScoreInfo
deriving Repr, DecidableEq

/-- Result of `parse_match_info`: the not-found marker or the header
record. -/
inductive MatchInfoResult where
  | notFound (error : String)
  | info (i : MatchInfo)
deriving Repr, DecidableEq

/-- The inner `get_logo_url` of `parse_match_info` (`parsers.py` lines
421–424). -/
def get_logo_url : Option Html → String
  | none => ""
  | some img_tag =>
    let src := img_tag.attrD "src" ""
    if pyStartsWith src "//" then "https:" ++ src else src

/-- The score parsing block of `parse_match_info` (`parsers.py` lines
445–473): status from `div.state`, the pair of scores only when exactly
two `div.score` nodes exist, and the first-half score split on `-`
whenever the score text contains a `-`, taking pieces 0 and 1 of the
split. -/
def parseScoreBlock (header : Html) : ScoreInfo :=
  match findE (elemWithId "div" "mScore") header with
  | none => ⟨"", "", "", "", "", ""⟩
  | some score_container =>
    let status := match findE (elemWithClass "div" "state") score_container with
      | some state_div => pyStrip state_div.getText
      | none => ""
    let scores := findAllE (elemWithClass "div" "score") score_container
    let home_score :=
      if scores.length = 2 then pyStrip (scores.getD 0 nilHtml).getText else ""
    let away_score :=
      if scores.length = 2 then pyStrip (scores.getD 1 nilHtml).getText else ""
    match findE (elemWithTitle "span" "Score 1st Half") score_container with
    | none => ⟨status, home_score, away_score, "", "", ""⟩
    | some ht_score_span =>
      let ht_score_full := pyStrip ht_score_span.getText
      if strContains "-" ht_score_full then
        let parts := pySplitChar '-' ht_score_full
        ⟨status, home_score, away_score, ht_score_full, parts.getD 0 "", parts.getD 1 ""⟩
      else
        ⟨status, home_score, away_score, ht_score_full, "", ""⟩

/-- `parse_match_info` (`parsers.py` lines 415–486): with no `#fbheader`
container the explicit not-found marker is returned; otherwise the header
record is assembled field by field with per-field fallbacks. -/
def parse_match_info (soup : Html) : MatchInfoResult :=
  match findE (elemWithId "div" "fbheader") soup with
  | none => .notFound "Match info header (fbheader) not found."
  | some header =>
    let home_team_div := findE (elemWithClass "div" "home") header
    let guest_team_div := findE (elemWithClass "div" "guest") header
    let other_info_div := findE (elemWithId "div" "otherInfo") header
    let league_text := match findE (elemWithClass "span" "sclassLink") header with
      | some league_span => joinWith " " (pySplitWs league_span.getText)
      | none => ""
    let stadium := match other_info_div with
      | none => ""
      | some oi =>
        match findCtx (elemWithClassSub "i" "icon-font-animation") oi with
        | some (_, parent, _) => pyStrip parent.getText
        | none => ""
    let weather := match other_info_div with
      | none => ""
      | some oi =>
        match findCtx (elemWithClassSub "i" "icon-weather") oi with
        | some (_, _, following) =>
          match following.head? with
          | some next_sibling => pyStrip (htmlStr next_sibling)
          | none => ""
        | none => ""
    .info
      { league := league_text
        match_time_utc := match findE (elemWithClass "span" "time") header with
          | some sp => sp.attrD "data-t" ""
          | none => ""
        home_team_name := match home_team_div with
          | some hd =>
            match findE (elemWithClass "div" "sclassName") hd with
            | some d => pyStrip d.getText
            | none => ""
          | none => ""
        home_team_logo_url := match home_team_div with
          | some hd => get_logo_url (findE (isTag "img") hd)
          | none => ""
        away_team_name := match guest_team_div with
          | some gd =>
            match findE (elemWithClass "div" "sclassName") gd with
            | some d => pyStrip d.getText
            | none => ""
          | none => ""
        away_team_logo_url := match guest_team_div with
          | some gd => get_logo_url (findE (isTag "img") gd)
          | none => ""
        stadium := stadium
        weather := weather
        score_info := parseScoreBlock header }

/-! ### Specification-side characterizations for the standings split

`parse_standings_table_spec_eq` formalizes the claim's description — the
table is split at the row one of whose header cells **equals** `"HT"` —
while `parse_standings_table_spec` formalizes the behavior implemented by
the source — the split row is the first row whose text **contains**
`"HT"` as a substring and that has a header cell.  Both describe the
block construction the same way: each block's header row's cell texts
key every following row, and a data row is accepted exactly when its
value-cell count equals the block's header-cell count. -/

/-- The accepted rows of one logical block, described as in the claim:
keep exactly the rows whose `td` count equals the header count, keyed by
the header texts. -/
def specBlockRows (headerTexts : List String) (rows : List Html) : List (List (String × String)) :=
  (rows.filter (fun r => (findAllE (isTag "td") r).length = headerTexts.length)).map
    (fun r => headerTexts.zip ((findAllE (isTag "td") r).map (fun c => pyStrip c.getText)))

/-- The header texts of a row: its `th` descendants' stripped texts. -/
def headerTextsOf (row : Html) : List String :=
  (findAllE (isTag "th") row).map (fun th => pyStrip th.getText)

/-- Index of the first list entry satisfying the criterion. -/
def firstIdxWhere (p : Html → Bool) : List Html → Option Nat
  | [] => none
  | r :: rest => if p r then some 0 else (firstIdxWhere p rest).map (· + 1)

/-- Split-and-block construction shared by the two spec-side variants,
parameterized by the split-row criterion. -/
def specStandingsSplit (splitHere : Html → Bool) (table : Html) : Option StandingsTable :=
  let rows := findAllE (isTag "tr") table
  match firstIdxWhere splitHere rows with
  | none => some ⟨[], []⟩
  | some i =>
    if rows.length < 2 then none
    else
      some
        { full_time :=
            specBlockRows (headerTextsOf (rows.getD 1 nilHtml)) ((rows.drop 2).take (i - 2))
          half_time :=
            specBlockRows (headerTextsOf (rows.getD i nilHtml)) (rows.drop (i + 1)) }

/-- The claim's split criterion: some header cell of the row equals
`"HT"`. -/
def splitRowEqHT (row : Html) : Bool :=
  (findAllE (isTag "th") row).any (fun th => pyStrip th.getText = "HT")

/-- The source's split criterion: the row's text contains `"HT"` and the
row has a header cell. -/
def splitRowSubHT (row : Html) : Bool :=
  strContains "HT" row.getText && (findE (isTag "th") row).isSome

/-- The claim as stated: split at the row with a header cell equal to
`"HT"`. -/
def parse_standings_table_spec_eq (table : Html) : Option StandingsTable :=
  specStandingsSplit splitRowEqHT table

/-- The amended description: split at the first row whose text contains
`"HT"` and that has a header cell. -/
def parse_standings_table_spec (table : Html) : Option StandingsTable :=
  specStandingsSplit splitRowSubHT table

/-! ### Concrete fixtures used by witnesses and counterexamples -/

/-- Wrap a field in the single quotes of the embedded-script format. -/
def qf (s : String) : String := quoteStr ++ s ++ quoteStr

/-- A well-formed embedded-script match body (all seven fields quoted). -/
def goodBody1 : String :=
  qf "123" ++ "," ++ qf "4" ++ "," ++ qf "10" ++ "," ++ qf "20" ++ "," ++
    qf "Home FC" ++ "," ++ qf "Away FC" ++ "," ++ qf "2025,7,24,13,0,0"

/-- A second well-formed body with a different id. -/
def goodBody2 : String :=
  qf "456" ++ "," ++ qf "4" ++ "," ++ qf "11" ++ "," ++ qf "21" ++ "," ++
    qf "Third FC" ++ "," ++ qf "Fourth FC" ++ "," ++ qf "2025,7,24,15,0,0"

/-- A blob with a malformed record (`A[1]`) between two well-formed ones. -/
def c3blob : String :=
  "A[0]=[" ++ goodBody1 ++ "];A[1]=[garbage];A[2]=[" ++ goodBody2 ++ "];"

/-- The record parsed from `goodBody1`. -/
def record1 : MatchRecord :=
  ⟨some 123, some 4, some 10, some 20, "Home FC", "Away FC",
    some ⟨2025, 7, 24, 13, 0, 0⟩, "2025,7,24,13,0,0"⟩

/-- The record parsed from `goodBody2`. -/
def record2 : MatchRecord :=
  ⟨some 456, some 4, some 11, some 21, "Third FC", "Fourth FC",
    some ⟨2025, 7, 24, 15, 0, 0⟩, "2025,7,24,15,0,0"⟩

/-- A body whose datetime field is the malformed `"2025,13"`. -/
def badDateBody : String :=
  "123,45,10,20," ++ qf "H" ++ "," ++ qf "A" ++ "," ++ qf "2025,13"

/-- A body with seven fields whose field 0 is not numeric. -/
def nonNumIdBody : String :=
  qf "x" ++ ",2,3,4," ++ qf "H" ++ "," ++ qf "A" ++ "," ++ qf "2025,7,24,13,0,0"

/-- A document containing none of the extractors' target containers. -/
def bareDoc : Html :=
  .elem "html" [] [.elem "body" [] [.text "empty page"]]

/-- Element-building helpers for fixtures. -/
def tdE (s : String) : Html := .elem "td" [] [.text s]

/-- A `th` cell holding one text node. -/
def thE (s : String) : Html := .elem "th" [] [.text s]

/-- A `tr` row holding the given cells. -/
def trE (cs : List Html) : Html := .elem "tr" [] cs

/-- A standings table in which the first `th` row merely *contains* `"HT"`
in a header text (`"WHT"`) while a later row's header cell *equals*
`"HT"`: the two split criteria pick different rows. -/
def c7table : Html :=
  .elem "table" []
    [trE [tdE "Standings"],
     trE [thE "Type", thE "WHT"],
     trE [tdE "a", tdE "b"],
     trE [thE "HT"],
     trE [tdE "x"]]

/-- A match-header document whose first-half score text `"1-"` has the
away half textually absent. -/
def c8doc : Html :=
  .elem "html" []
    [.elem "div" [("id", "fbheader")]
      [.elem "div" [("id", "mScore")]
        [.elem "span" [("title", "Score 1st Half")] [.text "1-"]]]]

/-- The first-half score span of the complete-score fixture. -/
def c8spFull : Html := .elem "span" [("title", "Score 1st Half")] [.text "2-1"]

/-- The score container of the complete-score fixture. -/
def c8scFull : Html := .elem "div" [("id", "mScore")] [c8spFull]

/-- The header element of the complete-score fixture. -/
def c8hdrFull : Html := .elem "div" [("id", "fbheader")] [c8scFull]

/-- A match-header document with a complete first-half score `"2-1"`. -/
def c8docFull : Html := .elem "html" [] [c8hdrFull]

/-- The score block of a parse result, for stating concrete facts
(`default` on the marker branch, which the fixtures never hit). -/
def scoreInfoOf : MatchInfoResult → ScoreInfo
  | .notFound _ => ⟨"", "", "", "", "", ""⟩
  | .info i => i.score_info

/-- Fan-out fixture: two named requests. -/
def urlsW : List (String × String) := [("a", "ua"), ("b", "ub")]

/-- A toy strict decoder for the abstract JSON parameter: accepts exactly
the body `"42"`. -/
def jloadsW : String → Option Nat := fun s => if s = "42" then some 42 else none

/-- Network oracle in which request `a` fails with a client error and
request `b` succeeds. -/
def netFailA : String → NetBehavior :=
  fun k => if k = "a" then .netError "boom" else .resp 200 "text/html" "42"

/-- Network oracle in which every request succeeds. -/
def netOkAll : String → NetBehavior := fun _ => .resp 200 "text/html" "42"

/-- Constant timing oracle. -/
def elW : String → Nat := fun _ => 5

/-- A parsed date payload with one dated and one undated record. -/
def parsedW : ParsedDateData :=
  { matchList := [record1, { record2 with match_time := none }]
    leagues := [(4, ⟨"4", "EPL", "Premier League", none⟩)] }

/-! ### Helper lemmas -/

theorem dropWhile_self_idem (p : α → Bool) (l : List α) :
    List.dropWhile p (List.dropWhile p l) = List.dropWhile p l := by
  induction l with
  | nil => rfl
  | cons a t ih =>
    by_cases h : p a
    · simp [List.dropWhile_cons, h, ih]
    · simp [List.dropWhile_cons, h]

theorem length_dropWhile_le' (p : α → Bool) (l : List α) :
    (List.dropWhile p l).length ≤ l.length := by
  induction l with
  | nil => simp
  | cons a t ih =>
    by_cases h : p a
    · simp only [List.dropWhile_cons, if_pos h, List.length_cons]
      omega
    · simp [List.dropWhile_cons, h]

theorem dropWhile_sfx (p : α → Bool) (l : List α) :
    ∃ u, u ++ List.dropWhile p l = l := by
  induction l with
  | nil => exact ⟨[], rfl⟩
  | cons a t ih =>
    by_cases h : p a
    · obtain ⟨u, hu⟩ := ih
      exact ⟨a :: u, by simp [List.dropWhile_cons, h, hu]⟩
    · exact ⟨[], by simp [List.dropWhile_cons, h]⟩

theorem dropWhile_pre (p : α → Bool) (l s : List α) (hl : List.dropWhile p l = l)
    (hs : ∃ t, s ++ t = l) : List.dropWhile p s = s := by
  obtain ⟨t, ht⟩ := hs
  cases s with
  | nil => rfl
  | cons a s2 =>
    subst ht
    by_cases h : p a
    · exfalso
      rw [List.cons_append, List.dropWhile_cons, if_pos h] at hl
      have h1 := length_dropWhile_le' p (s2 ++ t)
      rw [hl] at h1
      simp only [List.length_cons] at h1
      omega
    · simp [List.dropWhile_cons, h]

theorem pyStripList_idem (l : List Char) : pyStripList (pyStripList l) = pyStripList l := by
  unfold pyStripList
  have hmm : List.dropWhile isPySpace (List.dropWhile isPySpace l) = List.dropWhile isPySpace l :=
    dropWhile_self_idem _ l
  obtain ⟨u, hu⟩ := dropWhile_sfx isPySpace (List.dropWhile isPySpace l).reverse
  have hsm : ∃ t,
      (List.dropWhile isPySpace (List.dropWhile isPySpace l).reverse).reverse ++ t =
        List.dropWhile isPySpace l :=
    ⟨u.reverse, by rw [← List.reverse_append, hu, List.reverse_reverse]⟩
  have h1 := dropWhile_pre isPySpace _ _ hmm hsm
  rw [h1, List.reverse_reverse, dropWhile_self_idem]

theorem pyStrip_idem (s : String) : pyStrip (pyStrip s) = pyStrip s :=
  congrArg String.mk (pyStripList_idem s.data)

theorem pyStrip_clean (s : String) : pyStrip (clean_score_data s) = clean_score_data s := by
  unfold clean_score_data
  by_cases h : s = ""
  · simp only [h, if_pos rfl]
    rfl
  · simp only [h, if_neg h]
    exact pyStrip_idem _

theorem filterMap_drop_none {α β : Type} (f : α → Option β) (p : α → Bool)
    (h : ∀ x, p x = false → f x = none) (l : List α) :
    l.filterMap f = (l.filter p).filterMap f := by
  induction l with
  | nil => rfl
  | cons a t ih =>
    by_cases hp : p a
    · rw [List.filter_cons, if_pos hp]
      cases hf : f a <;> simp [List.filterMap_cons, hf, ih]
    · have hfa := h a (by simpa using hp)
      rw [List.filter_cons, if_neg (by simpa using hp), List.filterMap_cons, hfa, ih]

theorem filterMap_ite_eq_map_filter {α β : Type} (q : α → Prop) [DecidablePred q]
    (f : α → β) (l : List α) :
    (l.filterMap fun x => if q x then some (f x) else none) =
      (l.filter (fun x => decide (q x))).map f := by
  induction l with
  | nil => rfl
  | cons a t ih =>
    by_cases h : q a <;> simp [List.filterMap_cons, List.filter_cons, h, ih]

theorem foldl_append_filter {α β : Type} (p : α → Bool) (f : α → β) (l : List α)
    (init : List β) :
    l.foldl (fun acc m => if p m then acc ++ [f m] else acc) init =
      init ++ (l.filter p).map f := by
  induction l generalizing init with
  | nil => simp
  | cons a t ih =>
    by_cases h : p a <;> simp [List.filter_cons, h, ih]

theorem digit_not_space (c : Char) (h : c.isDigit = true) : isPySpace c = false := by
  cases hc : isPySpace c
  · rfl
  · exfalso
    have hc' : c = ' ' ∨ c = '\t' ∨ c = '\n' ∨ c = '\r' ∨ c = '\x0b' ∨ c = '\x0c' := by
      simpa [isPySpace, Bool.or_eq_true, or_assoc] using hc
    rcases hc' with rfl | rfl | rfl | rfl | rfl | rfl <;> revert h <;> decide

theorem dropWhile_all_digit (l : List Char) (h : ∀ c ∈ l, c.isDigit = true) :
    List.dropWhile isPySpace l = l := by
  cases l with
  | nil => rfl
  | cons a t =>
    rw [List.dropWhile_cons, if_neg]
    simp [digit_not_space a (h a (List.mem_cons_self a t))]

theorem stripList_all_digit (l : List Char) (h : ∀ c ∈ l, c.isDigit = true) :
    pyStripList l = l := by
  unfold pyStripList
  rw [dropWhile_all_digit l h,
    dropWhile_all_digit l.reverse (fun c hc => h c (List.mem_reverse.mp hc)),
    List.reverse_reverse]

theorem pyIntRest_all_digit (l : List Char) (h : ∀ c ∈ l, c.isDigit = true) :
    pyIntRest l = true := by
  induction l with
  | nil => rfl
  | cons c t ih =>
    have hc := h c (List.mem_cons_self c t)
    have hne : c ≠ '_' := by rintro rfl; revert hc; decide
    unfold pyIntRest
    rw [if_neg hne, Bool.and_eq_true]
    exact ⟨hc, ih (fun d hd => h d (List.mem_cons_of_mem c hd))⟩

theorem pyInt_of_digits (s : String) (h : pyIsDigit s = true) :
    ∃ n : Nat, pyInt s = some (n : Int) := by
  have hdat : ¬s.data.isEmpty ∧ ∀ c ∈ s.data, c.isDigit = true := by
    simpa [pyIsDigit, List.all_eq_true] using h
  have hstrip : (pyStrip s).data = s.data := by
    show pyStripList s.data = s.data
    exact stripList_all_digit s.data hdat.2
  unfold pyInt
  rw [hstrip]
  cases hl : s.data with
  | nil => simp [hl] at hdat
  | cons c rest =>
    have hc : c.isDigit = true := hdat.2 c (hl ▸ List.mem_cons_self c rest)
    have hrest : ∀ d ∈ rest, d.isDigit = true :=
      fun d hd => hdat.2 d (hl ▸ List.mem_cons_of_mem c hd)
    have h1 : c ≠ '+' := by rintro rfl; revert hc; decide
    have h2 : c ≠ '-' := by rintro rfl; revert hc; decide
    have hok : pyIntDigitsOk (c :: rest) = true := by
      simp only [pyIntDigitsOk, Bool.and_eq_true]
      exact ⟨hc, pyIntRest_all_digit rest hrest⟩
    simp only [if_neg h1, if_neg h2, hok, if_pos]
    exact ⟨pyIntDigitsVal (c :: rest), rfl⟩

/-! ### Claim theorems -/

/-- **C3.** For every input blob, any `A[n]=[...]` record whose body
tokenizes to fewer than 7 positional fields is omitted from the output
match list while all remaining records of the blob are still parsed: the
output equals the parse of the well-formed records alone (conjunct 2,
with conjunct 1 showing short records always parse to `None`), and on the
concrete blob with the malformed `A[1]=[garbage];` between two good
records both good records survive (conjuncts 3–4).  In the embedding
every step of a record parse is total, so the
exception-during-parse case of the claim coincides with the `None` case. -/
theorem C3_malformed_record_skip :
    (∀ body, (tokenizeParts body).length < 7 →
      MatchDateParser_parse_match_data body = none) ∧
    (∀ js_code, MatchDateParser_parse_matches js_code =
      ((findRecords 'A' js_code).filter
        (fun r => 7 ≤ (tokenizeParts r.2).length)).filterMap
        (fun r => MatchDateParser_parse_match_data r.2)) ∧
    findRecords 'A' c3blob = [(0, goodBody1), (1, "garbage"), (2, goodBody2)] ∧
    MatchDateParser_parse_matches c3blob = [record1, record2] := by
  refine ⟨?_, ?_, by decide, by decide⟩
  · intro body h
    unfold MatchDateParser_parse_match_data
    rw [if_pos h]
  · intro js_code
    unfold MatchDateParser_parse_matches
    apply filterMap_drop_none
    intro r hr
    unfold MatchDateParser_parse_match_data
    rw [if_pos]
    simpa using hr

/-- Witness for C3: the malformed body `"garbage"` tokenizes to fewer than
7 fields and is parsed to `None`. -/
theorem C3_malformed_record_skip_witness :
    (tokenizeParts "garbage").length < 7 ∧
      MatchDateParser_parse_match_data "garbage" = none :=
  ⟨by decide, C3_malformed_record_skip.1 "garbage" (by decide)⟩

/-- **C4.** The datetime parser maps `"2025,7,24,13,0,0"` to the naive
timestamp 2025-07-24T13:00:00 (the embedding carries no timezone, so no
offset is applied) and maps the malformed `"2025,13"` to `None`; and any
accepted record (at least 7 fields) whose datetime field fails to parse
still carries all team and id fields, has a null `match_time`, and
preserves the raw datetime string unchanged. -/
theorem C4_datetime_roundtrip :
    MatchDateParser_parse_datetime "2025,7,24,13,0,0" = some ⟨2025, 7, 24, 13, 0, 0⟩ ∧
    MatchDateParser_parse_datetime "2025,13" = none ∧
    (∀ data_str, 7 ≤ (tokenizeParts data_str).length →
      MatchDateParser_parse_datetime ((tokenizeParts data_str).getD 6 "") = none →
      MatchDateParser_parse_match_data data_str = some
        { match_id :=
            if pyIsDigit ((tokenizeParts data_str).getD 0 "") then
              pyInt ((tokenizeParts data_str).getD 0 "") else none
          league_id :=
            if pyIsDigit ((tokenizeParts data_str).getD 1 "") then
              pyInt ((tokenizeParts data_str).getD 1 "") else none
          home_team_id :=
            if pyIsDigit ((tokenizeParts data_str).getD 2 "") then
              pyInt ((tokenizeParts data_str).getD 2 "") else none
          away_team_id :=
            if pyIsDigit ((tokenizeParts data_str).getD 3 "") then
              pyInt ((tokenizeParts data_str).getD 3 "") else none
          home_team := (tokenizeParts data_str).getD 4 ""
          away_team := (tokenizeParts data_str).getD 5 ""
          match_time := none
          match_datetime_raw := (tokenizeParts data_str).getD 6 "" }) := by
  refine ⟨by decide, by decide, ?_⟩
  intro data_str h7 hdt
  unfold MatchDateParser_parse_match_data
  rw [if_neg (by omega)]
  have h6 : (6 : Nat) < (tokenizeParts data_str).length := by omega
  simp only [if_pos h6, hdt]
  have h1 : ((1 : Nat) < (tokenizeParts data_str).length) = True := by simp; omega
  have h2 : ((2 : Nat) < (tokenizeParts data_str).length) = True := by simp; omega
  have h3 : ((3 : Nat) < (tokenizeParts data_str).length) = True := by simp; omega
  have h4 : ((4 : Nat) < (tokenizeParts data_str).length) = True := by simp; omega
  have h5 : ((5 : Nat) < (tokenizeParts data_str).length) = True := by simp; omega
  simp [h1, h2, h3, h4, h5]

/-- Witness for C4: the record body with datetime field `"2025,13"` is
accepted with all team/id fields populated, a null kickoff, and the raw
string preserved. -/
theorem C4_datetime_roundtrip_witness :
    MatchDateParser_parse_match_data badDateBody = some
      { match_id :=
          if pyIsDigit ((tokenizeParts badDateBody).getD 0 "") then
            pyInt ((tokenizeParts badDateBody).getD 0 "") else none
        league_id :=
          if pyIsDigit ((tokenizeParts badDateBody).getD 1 "") then
            pyInt ((tokenizeParts badDateBody).getD 1 "") else none
        home_team_id :=
          if pyIsDigit ((tokenizeParts badDateBody).getD 2 "") then
            pyInt ((tokenizeParts badDateBody).getD 2 "") else none
        away_team_id :=
          if pyIsDigit ((tokenizeParts badDateBody).getD 3 "") then
            pyInt ((tokenizeParts badDateBody).getD 3 "") else none
        home_team := (tokenizeParts badDateBody).getD 4 ""
        away_team := (tokenizeParts badDateBody).getD 5 ""
        match_time := none
        match_datetime_raw := (tokenizeParts badDateBody).getD 6 "" } :=
  C4_datetime_roundtrip.2.2 badDateBody (by decide) (by decide)

/-- **C5 counterexample.** `clean_score_data` is *not* idempotent on every
string: on `"((2-1))"` the first application yields `"(2-1)"` and a second
application strips another layer, yielding `"2-1"`. -/
theorem C5_clean_score_counterexample :
    clean_score_data (clean_score_data "((2-1))") ≠ clean_score_data "((2-1))" := by
  decide

/-- **C5 (amended).** `clean_score_data` satisfies the claim's two
examples, and applying it twice changes nothing *provided the first
result does not itself both start with `(` and end with `)`*; full
idempotence fails only on such doubly-parenthesized inputs (see the
counterexample). -/
theorem C5_clean_score_amended :
    clean_score_data "(2-1)" = "2-1" ∧
    clean_score_data "2-1" = "2-1" ∧
    (∀ s, (pyStartsWith (clean_score_data s) "(" &&
        pyEndsWith (clean_score_data s) ")") = false →
      clean_score_data (clean_score_data s) = clean_score_data s) := by
  refine ⟨by decide, by decide, ?_⟩
  intro s h
  have hfix := pyStrip_clean s
  set r := clean_score_data s with hrdef
  by_cases hr : r = ""
  · rw [hr]
    decide
  · have hstep : clean_score_data r =
        pyStrip (if (pyStartsWith (pyStrip r) "(" && pyEndsWith (pyStrip r) ")") = true
          then dropEnds (pyStrip r) else pyStrip r) := by
      unfold clean_score_data
      rw [if_neg hr]
    rw [hstep, hfix, if_neg (by rw [h]; exact Bool.false_ne_true), hfix]

/-- Witness for C5: on `"2-1"` the cleaned text has no enclosing
parentheses and a second application changes nothing. -/
theorem C5_clean_score_amended_witness :
    (pyStartsWith (clean_score_data "2-1") "(" &&
      pyEndsWith (clean_score_data "2-1") ")") = false ∧
    clean_score_data (clean_score_data "2-1") = clean_score_data "2-1" :=
  ⟨by decide, C5_clean_score_amended.2.2 "2-1" (by decide)⟩

/-- **C9 counterexample.** A record whose field 0 is not numeric is still
accepted (it has 7 positional fields) but its `match_id` is `None` — so
`match_id` is *not* always an integer on accepted records, refuting the
claim that only `league_id` and the team ids are optional. -/
theorem C9_match_id_counterexample :
    7 ≤ (tokenizeParts nonNumIdBody).length ∧
    MatchDateParser_parse_match_data nonNumIdBody = some
      ⟨none, some 2, some 3, some 4, "H", "A",
        some ⟨2025, 7, 24, 13, 0, 0⟩, "2025,7,24,13,0,0"⟩ := by
  constructor
  · decide
  · decide

/-- **C9 (amended).** Every accepted record takes `match_id` from
positional field 0, but only conditionally: when field 0 is all digits it
is the parsed integer, otherwise it is `None` — `match_id` is optional
exactly like the league and team ids. -/
theorem C9_match_id_amended (data_str : String)
    (h7 : 7 ≤ (tokenizeParts data_str).length) :
    ∃ r, MatchDateParser_parse_match_data data_str = some r ∧
      r.match_id =
        (if pyIsDigit ((tokenizeParts data_str).getD 0 "") then
          pyInt ((tokenizeParts data_str).getD 0 "") else none) ∧
      (pyIsDigit ((tokenizeParts data_str).getD 0 "") = true →
        ∃ n : Nat, r.match_id = some (n : Int)) ∧
      (pyIsDigit ((tokenizeParts data_str).getD 0 "") = false →
        r.match_id = none) := by
  unfold MatchDateParser_parse_match_data
  rw [if_neg (by omega)]
  refine ⟨_, rfl, rfl, ?_, ?_⟩
  · intro hd
    rw [hd]
    simpa using pyInt_of_digits _ hd
  · intro hd
    rw [hd]
    simp

/-- Witness for C9 (amended): applied to the body whose field 0 is the
numeric `"123"`. -/
theorem C9_match_id_amended_witness :
    7 ≤ (tokenizeParts goodBody1).length ∧
    ∃ r, MatchDateParser_parse_match_data goodBody1 = some r ∧
      r.match_id =
        (if pyIsDigit ((tokenizeParts goodBody1).getD 0 "") then
          pyInt ((tokenizeParts goodBody1).getD 0 "") else none) ∧
      (pyIsDigit ((tokenizeParts goodBody1).getD 0 "") = true →
        ∃ n : Nat, r.match_id = some (n : Int)) ∧
      (pyIsDigit ((tokenizeParts goodBody1).getD 0 "") = false →
        r.match_id = none) :=
  ⟨by decide, C9_match_id_amended goodBody1 (by decide)⟩

/-- **C10.** In the date-listing assembly, a parsed record is included in
the endpoint's `matches` output (and counted in `match_count`) exactly
when its `match_time` is non-null: the output equals the formatted image
of precisely the records with a parsed kickoff, so every record whose
datetime failed to parse — retained by the parser with a null kickoff —
is excluded from the caller-visible output. -/
theorem C10_date_assembly (parsed : ParsedDateData) :
    assembleDateMatches parsed =
      (parsed.matchList.filter (fun m => m.match_time.isSome)).map
        (formatDateMatch parsed.leagues) ∧
    dateMatchCount parsed =
      (parsed.matchList.filter (fun m => m.match_time.isSome)).length := by
  have h1 : assembleDateMatches parsed =
      (parsed.matchList.filter (fun m => m.match_time.isSome)).map
        (formatDateMatch parsed.leagues) := by
    unfold assembleDateMatches
    rw [foldl_append_filter]
    simp
  refine ⟨h1, ?_⟩
  unfold dateMatchCount
  rw [h1, List.length_map]

theorem fetch_url_key {J : Type} (jloads : String → Option J) (net : NetBehavior)
    (el : Nat) (k u : String) : (fetch_url jloads net el k u).key = k := by
  unfold fetch_url
  cases net with
  | netError d => rfl
  | resp st ct b =>
    dsimp only
    split
    · rfl
    · split
      · rfl
      · split
        · cases jloads b <;> rfl
        · cases jloads b <;> rfl

theorem fetch_all_filter_key {J : Type} (jloads : String → Option J)
    (net : String → NetBehavior) (el : String → Nat) (k : String)
    (urls : List (String × String)) :
    (fetch_all_urls jloads net el urls).filter (fun r => r.key == k) =
      (urls.filter (fun ku => ku.1 == k)).map
        (fun ku => fetch_url jloads (net k) (el k) k ku.2) := by
  induction urls with
  | nil => rfl
  | cons ku t ih =>
    unfold fetch_all_urls at ih ⊢
    rw [List.map_cons, List.filter_cons, List.filter_cons]
    by_cases hk : ku.1 = k
    · have hkey : (fetch_url jloads (net ku.1) (el ku.1) ku.1 ku.2).key == k :=
        by rw [fetch_url_key, hk]; exact beq_self_eq_true k
      rw [if_pos hkey, if_pos (by rw [hk]; exact beq_self_eq_true k), List.map_cons, ih, hk]
    · have hkey : ((fetch_url jloads (net ku.1) (el ku.1) ku.1 ku.2).key == k) = false := by
        rw [fetch_url_key]
        exact beq_eq_false_iff_ne.mpr hk
      rw [if_neg (by rw [hkey]; exact Bool.false_ne_true),
        if_neg (by rw [beq_eq_false_iff_ne.mpr hk]; exact Bool.false_ne_true), ih]

theorem filter_key_nil {α : Type} (l : List (String × α)) (k : String)
    (h : k ∉ l.map Prod.fst) : l.filter (fun ku => ku.1 == k) = [] := by
  induction l with
  | nil => rfl
  | cons a t ih =>
    rw [List.map_cons] at h
    rw [List.filter_cons,
      if_neg (by rw [beq_eq_false_iff_ne.mpr
                  (fun he => h (by rw [← he]; exact List.mem_cons_self _ _))]
                 exact Bool.false_ne_true)]
    exact ih (fun hm => h (List.mem_cons_of_mem _ hm))

theorem filter_key_singleton {α : Type} (l : List (String × α)) (k : String)
    (hnd : (l.map Prod.fst).Nodup) (hm : k ∈ l.map Prod.fst) :
    (l.filter (fun ku => ku.1 == k)).length = 1 := by
  induction l with
  | nil => simp at hm
  | cons a t ih =>
    rw [List.map_cons, List.nodup_cons] at hnd
    rw [List.map_cons] at hm
    rw [List.filter_cons]
    by_cases hk : a.1 = k
    · rw [if_pos (by rw [beq_iff_eq]; exact hk), List.length_cons,
        filter_key_nil t k (hk ▸ hnd.1), List.length_nil]
    · rw [if_neg (by rw [beq_eq_false_iff_ne.mpr hk]; exact Bool.false_ne_true)]
      exact ih hnd.2 ((List.mem_cons.mp hm).resolve_left (fun he => hk he.symm))

/-- **C1.** The fan-out orchestrator returns one settled result per
submitted request (conjunct 1), with — for distinct dict keys — exactly
one entry per submitted key (conjunct 2); and each key's result is a
function of that key's own network behavior and timing alone: replacing
the oracles by ones that agree on `k2` (but may fail any other key
arbitrarily) leaves `k2`'s entry unchanged (conjunct 3), and `k2`'s entry
equals the isolated `fetch_url` outcome for `k2` (conjunct 4).  In
particular no failure short-circuits the batch. -/
theorem C1_fanout_isolation {J : Type} (jloads : String → Option J)
    (net net' : String → NetBehavior) (el el' : String → Nat)
    (urls : List (String × String)) (hkeys : (urls.map Prod.fst).Nodup) :
    (fetch_all_urls jloads net el urls).length = urls.length ∧
    (∀ k, k ∈ urls.map Prod.fst →
      ((fetch_all_urls jloads net el urls).filter (fun r => r.key == k)).length = 1) ∧
    (∀ k2, net k2 = net' k2 → el k2 = el' k2 →
      (fetch_all_urls jloads net el urls).filter (fun r => r.key == k2) =
        (fetch_all_urls jloads net' el' urls).filter (fun r => r.key == k2)) ∧
    (∀ k2, (fetch_all_urls jloads net el urls).filter (fun r => r.key == k2) =
      (urls.filter (fun ku => ku.1 == k2)).map
        (fun ku => fetch_url jloads (net k2) (el k2) k2 ku.2)) := by
  refine ⟨List.length_map _ _, ?_, ?_, fun k2 => fetch_all_filter_key ..⟩
  · intro k hk
    rw [fetch_all_filter_key, List.length_map]
    exact filter_key_singleton urls k hkeys hk
  · intro k2 hnet hel
    rw [fetch_all_filter_key, fetch_all_filter_key, hnet, hel]

/-- Witness for C1: on a two-request batch in which request `a` fails
with a network error and `b` succeeds, the batch still has both entries,
one per key, and `b`'s entry is bit-for-bit the entry it has when `a`
does not fail. -/
theorem C1_fanout_isolation_witness :
    (fetch_all_urls jloadsW netFailA elW urlsW).length = 2 ∧
    ((fetch_all_urls jloadsW netFailA elW urlsW).filter
      (fun r => r.key == "b")).length = 1 ∧
    (fetch_all_urls jloadsW netFailA elW urlsW).filter (fun r => r.key == "b") =
      (fetch_all_urls jloadsW netOkAll elW urlsW).filter (fun r => r.key == "b") := by
  have h := C1_fanout_isolation jloadsW netFailA netOkAll elW elW urlsW (by decide)
  exact ⟨h.1.trans (by decide), h.2.1 "b" (by decide), h.2.2.1 "b" (by decide) rfl⟩

/-- **C6.** For a sub-request declared as JSON (any key other than
`h2h_details`) whose transport content-type does not indicate JSON, the
client attempts the strict JSON decode of the body anyway: a decodable
body yields a `json`-shaped success, and only when the decode fails does
the client return the `error`-shaped outcome, which retains the first 200
characters of the raw body as its `content` preview. -/
theorem C6_json_fallback {J : Type} (jloads : String → Option J) (el : Nat)
    (key url : String) (status : Nat) (ct body : String)
    (hkey : key ≠ "h2h_details") (hst : status < 400)
    (hct : (strContains "application/json" (pyLower ct) ||
      strContains "text/javascript" (pyLower ct)) = false) :
    (∀ j, jloads body = some j →
      fetch_url jloads (.resp status ct body) el key url =
        ⟨key, .json j, "json", el⟩) ∧
    (jloads body = none →
      fetch_url jloads (.resp status ct body) el key url =
        ⟨key, .errNotJson "Response is not JSON" (pyTake 200 body), "error", el⟩) := by
  constructor
  · intro j hj
    unfold fetch_url
    dsimp only
    rw [if_neg (by omega : ¬400 ≤ status), if_neg hkey,
      if_neg (by rw [hct]; exact Bool.false_ne_true), hj]
  · intro hj
    unfold fetch_url
    dsimp only
    rw [if_neg (by omega : ¬400 ≤ status), if_neg hkey,
      if_neg (by rw [hct]; exact Bool.false_ne_true), hj]

/-- Witness for C6: with an ambiguous `text/html` content type, the body
`"42"` (accepted by the toy strict decoder) comes back as a JSON success,
and the undecodable body `"oops"` comes back as the error outcome with
its 200-character preview. -/
theorem C6_json_fallback_witness :
    fetch_url jloadsW (.resp 200 "text/html" "42") 5 "oddsA" "u" =
      ⟨"oddsA", .json 42, "json", 5⟩ ∧
    fetch_url jloadsW (.resp 200 "text/html" "oops") 5 "oddsA" "u" =
      ⟨"oddsA", .errNotJson "Response is not JSON" (pyTake 200 "oops"), "error", 5⟩ :=
  ⟨(C6_json_fallback jloadsW 5 "oddsA" "u" 200 "text/html" "42"
      (by decide) (by omega) (by decide)).1 42 (by decide),
   (C6_json_fallback jloadsW 5 "oddsA" "u" 200 "text/html" "oops"
      (by decide) (by omega) (by decide)).2 (by decide)⟩

/-- **C2 counterexample.** Not every extractor returns an
`{error: "<section> not found"}` marker on a document missing its target
container: `parse_standings` returns the empty dict (no key at all, in
particular no `error` key) and `parse_match_list_table` returns the empty
list, even though — as the first two conjuncts show — their containers
are indeed absent from the document.  Their result types carry no error
marker shape at all. -/
theorem C2_not_found_counterexample :
    findE (elemWithId "div" "porletP4") bareDoc = none ∧
    findE (elemWithId "table" "table_v3") bareDoc = none ∧
    parse_standings bareDoc = some ⟨none, none⟩ ∧
    parse_match_list_table bareDoc "table_v3" = [] := by
  refine ⟨rfl, rfl, by decide, rfl⟩

/-- **C2 (amended).** On a parsed document missing the extractor's target
container, the four section extractors `parse_match_info`,
`parse_fixture`, `parse_injury_suspension` and `parse_last_match_lineups`
return their documented explicit not-found markers, while
`parse_standings` returns the empty dict and `parse_match_list_table` the
empty list; none of the six raises past its own boundary on that path
(every embedding branch is total, and the one modeled exception of
`parse_standings` cannot occur when its container is absent). -/
theorem C2_not_found_markers :
    (∀ doc, findE (elemWithId "div" "fbheader") doc = none →
      parse_match_info doc = .notFound "Match info header (fbheader) not found.") ∧
    (∀ doc, findE (elemWithId "div" "porletP12") doc = none →
      parse_fixture doc = .notFound "Fixture section (porletP12) not found.") ∧
    (∀ doc, findE (elemWithId "div" "porletP13") doc = none →
      parse_injury_suspension doc =
        .notFound "Injury and Suspension section (porletP13) not found.") ∧
    (∀ doc, findE (elemWithId "div" "porletP14") doc = none →
      parse_last_match_lineups doc =
        .notFound "Last Match Lineups section (porletP14) not found.") ∧
    (∀ doc, findE (elemWithId "div" "porletP4") doc = none →
      parse_standings doc = some ⟨none, none⟩) ∧
    (∀ doc tid, findE (elemWithId "table" tid) doc = none →
      parse_match_list_table doc tid = []) := by
  refine ⟨?_, ?_, ?_, ?_, ?_, ?_⟩
  · intro doc h
    unfold parse_match_info
    rw [h]
  · intro doc h
    unfold parse_fixture
    rw [h]
  · intro doc h
    unfold parse_injury_suspension
    rw [h]
  · intro doc h
    unfold parse_last_match_lineups
    rw [h]
  · intro doc h
    unfold parse_standings
    rw [h]
    rfl
  · intro doc tid h
    unfold parse_match_list_table
    rw [h]

/-- Witness for C2 (amended): all six not-found behaviors observed on the
concrete container-free document. -/
theorem C2_not_found_markers_witness :
    parse_match_info bareDoc = .notFound "Match info header (fbheader) not found." ∧
    parse_fixture bareDoc = .notFound "Fixture section (porletP12) not found." ∧
    parse_injury_suspension bareDoc =
      .notFound "Injury and Suspension section (porletP13) not found." ∧
    parse_last_match_lineups bareDoc =
      .notFound "Last Match Lineups section (porletP14) not found." :=
  ⟨C2_not_found_markers.1 bareDoc rfl,
   C2_not_found_markers.2.1 bareDoc rfl,
   C2_not_found_markers.2.2.1 bareDoc rfl,
   C2_not_found_markers.2.2.2.1 bareDoc rfl⟩

theorem parse_block_eq (hdr : Html) (rows : List Html) :
    parse_block (hdr :: rows) = specBlockRows (headerTextsOf hdr) rows := by
  unfold parse_block specBlockRows headerTextsOf
  cases rows with
  | nil =>
    rw [if_pos (by simp)]
    rfl
  | cons r t =>
    rw [if_neg (by simp only [List.length_cons]; omega)]
    dsimp only
    exact filterMap_ite_eq_map_filter _ _ _

theorem standingsSplitAux_eq (rows : List Html) (n : Nat) :
    standingsSplitAux n rows =
      (firstIdxWhere splitRowSubHT rows).map (fun i => (n + i, rows.getD i nilHtml)) := by
  induction rows generalizing n with
  | nil => rfl
  | cons r t ih =>
    unfold standingsSplitAux firstIdxWhere
    have hsp : splitRowSubHT r =
        (strContains "HT" r.getText && (findE (isTag "th") r).isSome) := rfl
    rw [hsp]
    by_cases h : strContains "HT" r.getText && (findE (isTag "th") r).isSome
    · rw [if_pos h, if_pos h]
      simp
    · rw [if_neg h, if_neg h, ih (n + 1)]
      cases hfi : firstIdxWhere splitRowSubHT t with
      | none => rfl
      | some i =>
        simp only [Option.map_some', List.getD_cons_succ]
        rw [Nat.add_assoc, Nat.add_comm 1 i]

/-- **C7 counterexample.** `parse_standings_table` does not split at the
row whose header cell *equals* `"HT"`: on a table whose earlier header
row contains a cell `"WHT"` (so its text contains `"HT"` as a substring)
the source splits there instead, and both logical blocks differ from the
blocks described by the claim. -/
theorem C7_standings_split_counterexample :
    parse_standings_table c7table ≠ parse_standings_table_spec_eq c7table := by
  decide

/-- **C7 (amended).** `parse_standings_table` splits the physical table
into the full-time and half-time blocks at the *first row whose full text
contains `"HT"` as a substring and that has a header cell* (not
necessarily a cell equal to `"HT"`); each block's header row's cell texts
key every following row of the block, and a data row is accepted exactly
when its value-cell count equals that block's header-cell count (ragged
rows are dropped) — the source function coincides everywhere with the
specification-side description `parse_standings_table_spec`. -/
theorem C7_standings_split_amended (table : Html) :
    parse_standings_table table = parse_standings_table_spec table := by
  unfold parse_standings_table parse_standings_table_spec specStandingsSplit
  generalize findAllE (isTag "tr") table = rows
  simp only [standingsSplitAux_eq]
  cases hfi : firstIdxWhere splitRowSubHT rows with
  | none => rfl
  | some i =>
    simp only [Option.map_some']
    cases rows with
    | nil => simp [firstIdxWhere] at hfi
    | cons r0 t0 =>
      cases t0 with
      | nil => rfl
      | cons r1 t1 =>
        rw [if_neg (by simp only [List.length_cons]; omega)]
        simp only [show (r0 :: r1 :: t1).get? 1 = some r1 from rfl, parse_block_eq,
          Nat.zero_add]
        rfl

/-- **C8 counterexample.** With first-half score text `"1-"` — the away
half textually absent — `parse_match_info` still splits and sets
`ht_home_score` to `"1"` (and `ht_away_score` to `""`): the sub-score
fields do not both remain empty when one half is absent, refuting the
claim that the split happens only when both halves are textually
present. -/
theorem C8_ht_score_counterexample :
    scoreInfoOf (parse_match_info c8doc) = ⟨"", "", "", "1-", "1", ""⟩ := by
  decide

/-- **C8 (amended).** The match-header extractor computes the score block
of its result from the found header with `parseScoreBlock` (conjunct 1),
and the first-half score text is split on a literal `-` *whenever the
text contains a `-` at all*: `ht_home_score` receives the text before the
first `-` and `ht_away_score` the piece between the first and second `-`;
only when the text contains no `-` do both sub-score fields remain
empty. -/
theorem C8_ht_score_split (doc header sc sp : Html)
    (hheader : findE (elemWithId "div" "fbheader") doc = some header) :
    (∃ i, parse_match_info doc = .info i ∧ i.score_info = parseScoreBlock header) ∧
    (findE (elemWithId "div" "mScore") header = some sc →
     findE (elemWithTitle "span" "Score 1st Half") sc = some sp →
     ((strContains "-" (pyStrip sp.getText) = true →
        (parseScoreBlock header).ht_score = pyStrip sp.getText ∧
        (parseScoreBlock header).ht_home_score =
          (pySplitChar '-' (pyStrip sp.getText)).getD 0 "" ∧
        (parseScoreBlock header).ht_away_score =
          (pySplitChar '-' (pyStrip sp.getText)).getD 1 "") ∧
      (strContains "-" (pyStrip sp.getText) = false →
        (parseScoreBlock header).ht_home_score = "" ∧
        (parseScoreBlock header).ht_away_score = ""))) := by
  constructor
  · unfold parse_match_info
    rw [hheader]
    exact ⟨_, rfl, rfl⟩
  · intro hsc hsp
    unfold parseScoreBlock
    rw [hsc]
    dsimp only
    rw [hsp]
    dsimp only
    constructor
    · intro hdash
      rw [if_pos hdash]
      exact ⟨rfl, rfl, rfl⟩
    · intro hdash
      rw [if_neg (by rw [hdash]; exact Bool.false_ne_true)]
      exact ⟨rfl, rfl⟩

/-- Witness for C8 (amended): on the complete-score fixture (`"2-1"`) the
header's score block is the result's score block and the split yields
`"2"` and `"1"`. -/
theorem C8_ht_score_split_witness :
    (∃ i, parse_match_info c8docFull = .info i ∧
      i.score_info = parseScoreBlock c8hdrFull) ∧
    (parseScoreBlock c8hdrFull).ht_score = pyStrip c8spFull.getText ∧
    (parseScoreBlock c8hdrFull).ht_home_score =
      (pySplitChar '-' (pyStrip c8spFull.getText)).getD 0 "" ∧
    (parseScoreBlock c8hdrFull).ht_away_score =
      (pySplitChar '-' (pyStrip c8spFull.getText)).getD 1 "" := by
  have h := C8_ht_score_split c8docFull c8hdrFull c8scFull c8spFull rfl
  exact ⟨h.1, (h.2 rfl rfl).1 (by decide)⟩

/-- Witness for C7 (amended), instantiated at the concrete fixture
table. -/
theorem C7_standings_split_amended_witness :
    parse_standings_table c7table = parse_standings_table_spec c7table :=
  C7_standings_split_amended c7table

/-- Witness for C10, instantiated at a payload holding one record with a
parsed kickoff and one with a null kickoff. -/
theorem C10_date_assembly_witness :
    assembleDateMatches parsedW =
      (parsedW.matchList.filter (fun m => m.match_time.isSome)).map
        (formatDateMatch parsedW.leagues) ∧
    dateMatchCount parsedW =
      (parsedW.matchList.filter (fun m => m.match_time.isSome)).length :=
  C10_date_assembly parsedW
